import Mathlib

/-!
Shallow embedding of the Idswyft Python SDK client
(`sdks/python/idswyft/client.py` and `sdks/python/idswyft/exceptions.py`)
and proofs about its request/response contract layer.

JSON values are modelled by an inductive `PyJson`; decoded JSON objects
(Python dicts produced by `response.json()`) are association lists looked
up with `List.lookup`, matching `dict.get` for dicts without duplicate
keys.  Raised exceptions are modelled by the inductive `IdswyftExc`,
returned through `Except`.
-/

set_option autoImplicit false

/-- A decoded JSON value, the dynamic values flowing through the client. -/
inductive PyJson where
  | null
  | bool (b : Bool)
  | num (n : Int)
  | str (s : String)
  | arr (xs : List PyJson)
  | obj (kvs : List (String × PyJson))

/-- A decoded JSON object (a Python dict), as returned by `response.json()`. -/
abbrev PyDict := List (String × PyJson)

/-- The closed exception hierarchy of `exceptions.py`.  Each constructor
records the data stored on the exception instance by its `__init__`. -/
inductive IdswyftExc where
  | validationError (message : PyJson) (fieldName : Option PyJson) (validationErrors : List PyJson)
  | authenticationError (message : PyJson)
  | notFoundError (resource : PyJson)
  | rateLimitError (message : PyJson) (retryAfter : Option PyJson)
  | serverError (message : PyJson)
  | apiError (message : PyJson) (statusCode : Nat) (errorCode : Option PyJson) (details : Option PyJson)
  | networkError (message : String)

/-- The `status_code` attribute each exception class sets in `exceptions.py`:
the subclasses pin 400/401/404/429/500, `IdswyftAPIError` stores the code it
was given, and `IdswyftNetworkError` leaves it `None`. -/
def IdswyftExc.pyStatusCode : IdswyftExc → Option Nat
  | .validationError .. => some 400
  | .authenticationError .. => some 401
  | .notFoundError .. => some 404
  | .rateLimitError .. => some 429
  | .serverError .. => some 500
  | .apiError _ s _ _ => some s
  | .networkError _ => none

/-- Which class of the taxonomy an exception value belongs to. -/
inductive ExcKind where
  | validation
  | authentication
  | notFound
  | rateLimit
  | server
  | api
  | network
deriving DecidableEq

/-- The kind (class) of a raised exception. -/
def IdswyftExc.kind : IdswyftExc → ExcKind
  | .validationError .. => .validation
  | .authenticationError .. => .authentication
  | .notFoundError .. => .notFound
  | .rateLimitError .. => .rateLimit
  | .serverError .. => .server
  | .apiError .. => .api
  | .networkError _ => .network

/-- `True` exactly on `notFoundError`, mirroring an
`except IdswyftNotFoundError` clause. -/
def IdswyftExc.isNotFound : IdswyftExc → Bool
  | .notFoundError _ => true
  | _ => false

/-- `error_data.get("message", "API request failed")` in `_raise_for_status`. -/
def pyMessage (error_data : PyDict) : PyJson :=
  (List.lookup "message" error_data).getD (.str "API request failed")

/-- The `validation_errors` list `IdswyftValidationError.__init__` ends up
storing: the `details` value when it is a JSON list, and `[]` otherwise
(`details if isinstance(details, list) else None`, then `... or []`). -/
def pyValidationList (error_data : PyDict) : List PyJson :=
  match List.lookup "details" error_data with
  | some (.arr xs) => xs
  | _ => []

/-- `IdswyftClient._raise_for_status` (client.py lines 129-152): classify a
failed response by status code, building the corresponding exception from
whatever optional keys the error body carries. -/
def _raise_for_status (status_code : Nat) (error_data : PyDict) : IdswyftExc :=
  if status_code = 400 then
    .validationError (pyMessage error_data) (List.lookup "field" error_data)
      (pyValidationList error_data)
  else if status_code = 401 then
    .authenticationError (pyMessage error_data)
  else if status_code = 404 then
    .notFoundError ((List.lookup "resource" error_data).getD (.str "Resource"))
  else if status_code = 429 then
    .rateLimitError (pyMessage error_data) (List.lookup "retry_after" error_data)
  else if 500 ≤ status_code ∧ status_code < 600 then
    .serverError (pyMessage error_data)
  else
    .apiError (pyMessage error_data) status_code (List.lookup "code" error_data)
      (List.lookup "details" error_data)

/-- The exception kind `_raise_for_status` selects, as a function of the
status code alone (the dispatch structure of client.py lines 135-152). -/
def statusKind (status_code : Nat) : ExcKind :=
  if status_code = 400 then .validation
  else if status_code = 401 then .authentication
  else if status_code = 404 then .notFound
  else if status_code = 429 then .rateLimit
  else if 500 ≤ status_code ∧ status_code < 600 then .server
  else .api

/-- The outcome of the underlying `requests` call inside `_make_request`:
either an HTTP response (with its status, its decoded JSON object body when
the body is a JSON object, and its raw text), or one of the transport-level
exceptions the `except` clauses catch. -/
inductive TransportOutcome where
  | response (status : Nat) (jsonBody : Option PyDict) (text : String)
  | timeout
  | connectionError
  | requestError (msg : String)

/-- `IdswyftClient._make_request` (client.py lines 86-127) as a function of
the transport outcome.  200/201 return the decoded body, falling back to
`{"message": "Success"}` when the body is not JSON; any other status is
routed through `_raise_for_status` with the decoded error body (or the
`{"error": ..., "message": ...}` substitute); the three `except` clauses
turn transport failures into `IdswyftNetworkError`. -/
def _make_request (timeoutSecs : Nat) : TransportOutcome → Except IdswyftExc PyDict
  | .response status jsonBody text =>
    if status = 200 ∨ status = 201 then
      .ok (jsonBody.getD [("message", .str "Success")])
    else
      .error (_raise_for_status status
        (jsonBody.getD [("error", .str "Unknown error"), ("message", .str text)]))
  | .timeout =>
    .error (.networkError ("Request timed out after " ++ toString timeoutSecs ++ " seconds"))
  | .connectionError =>
    .error (.networkError "Failed to connect to Idswyft API")
  | .requestError m =>
    .error (.networkError ("Network error: " ++ m))

/-- C1: for every response status other than 200/201, `_raise_for_status`
raises exactly one exception whose kind is determined solely by the status
code per the taxonomy table; 400/401/404/429/5xx/other build the documented
exception from the optional body keys (404 defaulting the resource to
"Resource" when absent, 429 carrying the body's `retry_after` value, any
other status carrying the status code), and missing keys only fall back to
defaults, never crash (the classifier is a total function). -/
theorem c1_raise_for_status_taxonomy :
    (∀ status ed, status ≠ 200 → status ≠ 201 →
      (_raise_for_status status ed).kind = statusKind status)
    ∧ (∀ ed, _raise_for_status 400 ed =
        .validationError (pyMessage ed) (List.lookup "field" ed) (pyValidationList ed))
    ∧ (∀ ed, _raise_for_status 401 ed = .authenticationError (pyMessage ed))
    ∧ (∀ ed, _raise_for_status 404 ed =
        .notFoundError ((List.lookup "resource" ed).getD (.str "Resource")))
    ∧ (∀ ed, List.lookup "resource" ed = none →
        _raise_for_status 404 ed = .notFoundError (.str "Resource"))
    ∧ (∀ ed, _raise_for_status 429 ed =
        .rateLimitError (pyMessage ed) (List.lookup "retry_after" ed))
    ∧ (∀ status ed, 500 ≤ status → status < 600 →
        _raise_for_status status ed = .serverError (pyMessage ed))
    ∧ (∀ status ed, status ≠ 400 → status ≠ 401 → status ≠ 404 → status ≠ 429 →
        ¬ (500 ≤ status ∧ status < 600) →
        _raise_for_status status ed =
          .apiError (pyMessage ed) status (List.lookup "code" ed) (List.lookup "details" ed)) := by
  refine ⟨?_, ?_, ?_, ?_, ?_, ?_, ?_, ?_⟩
  · intro status ed _ _
    unfold _raise_for_status statusKind
    split_ifs <;> rfl
  · intro ed; rfl
  · intro ed; rfl
  · intro ed; rfl
  · intro ed h; simp [_raise_for_status, h]
  · intro ed; rfl
  · intro status ed h1 h2
    have hne : ¬ (status = 400) := by omega
    have hne2 : ¬ (status = 401) := by omega
    have hne3 : ¬ (status = 404) := by omega
    have hne4 : ¬ (status = 429) := by omega
    simp [_raise_for_status, hne, hne2, hne3, hne4, h1, h2]
  · intro status ed h1 h2 h3 h4 h5
    simp [_raise_for_status, h1, h2, h3, h4, h5]

/-- Witness for C1: the spec's 429 scenario (body with `retry_after` 60
yields an exception carrying 60), plus a kind-determinism instance at a
status the table does not name. -/
theorem c1_raise_for_status_taxonomy_witness :
    _raise_for_status 429 [("message", .str "Rate limit exceeded"), ("retry_after", .num 60)] =
      .rateLimitError (.str "Rate limit exceeded") (some (.num 60))
    ∧ (_raise_for_status 302 []).kind = statusKind 302 := by
  refine ⟨?_, ?_⟩
  · exact c1_raise_for_status_taxonomy.2.2.2.2.2.1
      [("message", .str "Rate limit exceeded"), ("retry_after", .num 60)]
  · exact c1_raise_for_status_taxonomy.1 302 [] (by decide) (by decide)

/-- `IdswyftClient.verify_document` (client.py lines 191-240), viewed from
the transport outcome of its `POST /api/verify/document` request onward:
the response body is returned via `response.get("verification", response)`,
i.e. the value under the `"verification"` key when present and the raw body
otherwise; errors propagate unchanged. -/
def verify_document_call (timeoutSecs : Nat) (t : TransportOutcome) : Except IdswyftExc PyJson :=
  match _make_request timeoutSecs t with
  | .ok response => .ok ((List.lookup "verification" response).getD (.obj response))
  | .error e => .error e

/-- `IdswyftClient.verify_selfie` (client.py lines 369-411), viewed from the
transport outcome of its `POST /api/verify/selfie` request onward; same
`response.get("verification", response)` unwrap as `verify_document`. -/
def verify_selfie_call (timeoutSecs : Nat) (t : TransportOutcome) : Except IdswyftExc PyJson :=
  match _make_request timeoutSecs t with
  | .ok response => .ok ((List.lookup "verification" response).getD (.obj response))
  | .error e => .error e

/-- `IdswyftClient.health_check` (client.py lines 672-683): forward the
`GET /api/health` result, but absorb `IdswyftNotFoundError` into the
synthesized body `{"status": "ok", "timestamp": ""}`. -/
def health_check (timeoutSecs : Nat) (t : TransportOutcome) : Except IdswyftExc PyDict :=
  match _make_request timeoutSecs t with
  | .ok r => .ok r
  | .error e =>
    match e with
    | .notFoundError _ => .ok [("status", .str "ok"), ("timestamp", .str "")]
    | _ => .error e

/-- C4: every transport-level failure (timeout, connection failure, or any
other transport exception) makes `_make_request` raise `IdswyftNetworkError`
— never a status-classified kind — and that error's `status_code` is
`None`. -/
theorem c4_transport_failures_network_error (timeoutSecs : Nat) (t : TransportOutcome)
    (h : t = .timeout ∨ t = .connectionError ∨ ∃ m, t = .requestError m) :
    ∃ msg, _make_request timeoutSecs t = .error (.networkError msg)
      ∧ (IdswyftExc.networkError msg).kind = .network
      ∧ (IdswyftExc.networkError msg).pyStatusCode = none := by
  rcases h with rfl | rfl | ⟨m, rfl⟩
  · exact ⟨_, rfl, rfl, rfl⟩
  · exact ⟨_, rfl, rfl, rfl⟩
  · exact ⟨_, rfl, rfl, rfl⟩

/-- Witness for C4: a concrete timeout with a 30-second client timeout. -/
theorem c4_transport_failures_network_error_witness :
    ∃ msg, _make_request 30 .timeout = .error (.networkError msg)
      ∧ (IdswyftExc.networkError msg).kind = .network
      ∧ (IdswyftExc.networkError msg).pyStatusCode = none :=
  c4_transport_failures_network_error 30 .timeout (Or.inl rfl)

/-- C3: on a decoded 200 body, `verify_document` and `verify_selfie` return
the value under the `"verification"` key when that key is present and the
raw body otherwise; in particular the spec's mock body
`{"verification": {"id": "verif_1", "status": "pending", "type": "document"}}`
yields a record with id `"verif_1"` and status `"pending"`. -/
theorem c3_verification_unwrap :
    (∀ timeoutSecs t response, _make_request timeoutSecs t = .ok response →
      (∀ v, List.lookup "verification" response = some v →
        verify_document_call timeoutSecs t = .ok v
        ∧ verify_selfie_call timeoutSecs t = .ok v)
      ∧ (List.lookup "verification" response = none →
        verify_document_call timeoutSecs t = .ok (.obj response)
        ∧ verify_selfie_call timeoutSecs t = .ok (.obj response)))
    ∧ verify_document_call 30
        (.response 200 (some [("verification",
          .obj [("id", .str "verif_1"), ("status", .str "pending"), ("type", .str "document")])]) "") =
        .ok (.obj [("id", .str "verif_1"), ("status", .str "pending"), ("type", .str "document")])
    ∧ List.lookup "id"
        [("id", PyJson.str "verif_1"), ("status", PyJson.str "pending"), ("type", PyJson.str "document")] =
        some (.str "verif_1")
    ∧ List.lookup "status"
        [("id", PyJson.str "verif_1"), ("status", PyJson.str "pending"), ("type", PyJson.str "document")] =
        some (.str "pending") := by
  refine ⟨?_, rfl, rfl, rfl⟩
  intro timeoutSecs t response h
  constructor
  · intro v hv
    constructor <;> simp [verify_document_call, verify_selfie_call, h, hv]
  · intro hv
    constructor <;> simp [verify_document_call, verify_selfie_call, h, hv]

/-- Witness for C3: the wrapped and unwrapped cases at concrete responses. -/
theorem c3_verification_unwrap_witness :
    verify_document_call 30 (.response 200 (some [("verification", .str "v")]) "") = .ok (.str "v")
    ∧ verify_selfie_call 30 (.response 201 (some [("ok", .bool true)]) "") =
        .ok (.obj [("ok", .bool true)]) := by
  constructor
  · exact ((c3_verification_unwrap.1 30 (.response 200 (some [("verification", .str "v")]) "")
      [("verification", .str "v")] rfl).1 (.str "v") rfl).1
  · exact ((c3_verification_unwrap.1 30 (.response 201 (some [("ok", .bool true)]) "")
      [("ok", .bool true)] rfl).2 rfl).2

/-- C6: `health_check` turns an HTTP 404 into `{"status": "ok",
"timestamp": ""}` instead of raising, propagates the `IdswyftServerError`
of an HTTP 500 unchanged, and absorbs no other error kind; the other
methods absorb nothing at all (`verify_document`/`verify_selfie` propagate
every classified error unchanged). -/
theorem c6_health_check_absorbs_only_not_found :
    (∀ timeoutSecs jsonBody text,
      health_check timeoutSecs (.response 404 jsonBody text) =
        .ok [("status", .str "ok"), ("timestamp", .str "")])
    ∧ (∀ timeoutSecs jsonBody text, ∃ m,
      _make_request timeoutSecs (.response 500 jsonBody text) = .error (.serverError m)
      ∧ health_check timeoutSecs (.response 500 jsonBody text) = .error (.serverError m))
    ∧ (∀ timeoutSecs t e, _make_request timeoutSecs t = .error e →
        e.isNotFound = false → health_check timeoutSecs t = .error e)
    ∧ (∀ timeoutSecs t e, _make_request timeoutSecs t = .error e →
        verify_document_call timeoutSecs t = .error e
        ∧ verify_selfie_call timeoutSecs t = .error e) := by
  refine ⟨?_, ?_, ?_, ?_⟩
  · intro timeoutSecs jsonBody text
    simp [health_check, _make_request, _raise_for_status]
  · intro timeoutSecs jsonBody text
    refine ⟨pyMessage (jsonBody.getD [("error", .str "Unknown error"), ("message", .str text)]),
      ?_, ?_⟩ <;> simp [health_check, _make_request, _raise_for_status, pyMessage]
  · intro timeoutSecs t e h hnf
    cases e <;> simp_all [health_check, IdswyftExc.isNotFound]
  · intro timeoutSecs t e h
    constructor <;> simp [verify_document_call, verify_selfie_call, h]

/-- Witness for C6: a concrete 401 authentication failure is propagated
unchanged by `health_check` (only 404 is absorbed). -/
theorem c6_health_check_absorbs_only_not_found_witness :
    health_check 30 (.response 401 (some []) "") =
      .error (.authenticationError (.str "API request failed")) :=
  c6_health_check_absorbs_only_not_found.2.2.1 30 (.response 401 (some []) "")
    (.authenticationError (.str "API request failed")) rfl rfl

/-- C10: a 2xx status other than 200/201 (e.g. 204 No Content) is not a
success for `_make_request`: it is routed through the classifier and raises
the generic `IdswyftAPIError` carrying that status code. -/
theorem c10_other_2xx_rejected (timeoutSecs status : Nat) (jsonBody : Option PyDict)
    (text : String) (h2 : 200 ≤ status) (h3 : status < 300)
    (h200 : status ≠ 200) (h201 : status ≠ 201) :
    ∃ m c d, _make_request timeoutSecs (.response status jsonBody text) =
        .error (.apiError m status c d)
      ∧ (IdswyftExc.apiError m status c d).pyStatusCode = some status := by
  have h400 : status ≠ 400 := by omega
  have h401 : status ≠ 401 := by omega
  have h404 : status ≠ 404 := by omega
  have h429 : status ≠ 429 := by omega
  have h5xx : ¬ (500 ≤ status ∧ status < 600) := by omega
  have hns : ¬ (status = 200 ∨ status = 201) := by omega
  refine ⟨pyMessage (jsonBody.getD [("error", .str "Unknown error"), ("message", .str text)]),
    List.lookup "code" (jsonBody.getD [("error", .str "Unknown error"), ("message", .str text)]),
    List.lookup "details" (jsonBody.getD [("error", .str "Unknown error"), ("message", .str text)]),
    ?_, rfl⟩
  simp only [_make_request, if_neg hns]
  rw [c1_raise_for_status_taxonomy.2.2.2.2.2.2.2 status _ h400 h401 h404 h429 h5xx]

/-- The `FileData` union accepted by upload methods: a file-system path, raw
bytes, a readable stream, or anything else (which `_prepare_file` rejects);
`invalid` records the `type(...)` text used in the error message. -/
inductive FileData where
  | path (p : String)
  | bytes (b : List Nat)
  | stream (b : List Nat)
  | invalid (typeText : String)

/-- `IdswyftClient._prepare_file` (client.py lines 154-167).  The file
system is passed explicitly as the map from paths to contents read by
`open(file_data, "rb").read()`; a stream carries the bytes its `read()`
returns.  The `ValueError` branch is the `Except.error` case. -/
def _prepare_file (fs : String → List Nat) (file_data : FileData) (field_name : String) :
    Except String (String × List Nat × String) :=
  match file_data with
  | .path p => .ok (field_name, fs p, "application/octet-stream")
  | .bytes b => .ok (field_name, b, "application/octet-stream")
  | .stream b => .ok (field_name, b, "application/octet-stream")
  | .invalid t => .error ("Invalid file data type: " ++ t)

/-- C7: `_prepare_file` is referentially consistent — the same byte content
supplied as a path, as raw bytes, or as a stream yields the identical
prepared tuple, with MIME type `application/octet-stream` and the given
field name — and any other argument is rejected with a `ValueError` before
any network interaction (the function consults nothing but its input). -/
theorem c7_prepare_file_consistent (fs : String → List Nat) (p field_name : String)
    (content : List Nat) (h : fs p = content) :
    _prepare_file fs (.path p) field_name = .ok (field_name, content, "application/octet-stream")
    ∧ _prepare_file fs (.bytes content) field_name =
        .ok (field_name, content, "application/octet-stream")
    ∧ _prepare_file fs (.stream content) field_name =
        .ok (field_name, content, "application/octet-stream")
    ∧ ∀ t, _prepare_file fs (.invalid t) field_name =
        .error ("Invalid file data type: " ++ t) := by
  subst h
  exact ⟨rfl, rfl, rfl, fun _ => rfl⟩

/-- Witness for C7: the three variants of the bytes `[1, 2, 3]` under a
file system mapping `"doc.jpg"` to those bytes. -/
theorem c7_prepare_file_consistent_witness :
    _prepare_file (fun _ => [1, 2, 3]) (.path "doc.jpg") "document" =
      .ok ("document", [1, 2, 3], "application/octet-stream")
    ∧ _prepare_file (fun _ => [1, 2, 3]) (.bytes [1, 2, 3]) "document" =
      .ok ("document", [1, 2, 3], "application/octet-stream")
    ∧ _prepare_file (fun _ => [1, 2, 3]) (.stream [1, 2, 3]) "document" =
      .ok ("document", [1, 2, 3], "application/octet-stream") :=
  ⟨(c7_prepare_file_consistent (fun _ => [1, 2, 3]) "doc.jpg" "document" [1, 2, 3] rfl).1,
   (c7_prepare_file_consistent (fun _ => [1, 2, 3]) "doc.jpg" "document" [1, 2, 3] rfl).2.1,
   (c7_prepare_file_consistent (fun _ => [1, 2, 3]) "doc.jpg" "document" [1, 2, 3] rfl).2.2.1⟩

/-- Python's `str.rstrip("/")`: drop every trailing slash. -/
def rstripSlashes (s : String) : String :=
  String.mk (s.data.reverse.dropWhile (fun c => c = '/')).reverse

/-- The client state `IdswyftClient.__init__` builds: configuration plus
the default headers installed on the session. -/
structure ClientConfig where
  api_key : String
  base_url : String
  timeout : Nat
  sandbox : Bool
  headers : List (String × String)

/-- `IdswyftClient.__init__` (client.py lines 62-84): reject a falsy (empty)
API key with `ValueError("API key is required")`, otherwise record the
configuration and session headers.  It is a pure constructor: no transport
outcome is consumed, so no network request can be issued. -/
def client_init (api_key : String) (base_url : String := "https://api.idswyft.com")
    (timeout : Nat := 30) (sandbox : Bool := false) : Except String ClientConfig :=
  if api_key = "" then
    .error "API key is required"
  else
    .ok { api_key := api_key
          base_url := rstripSlashes base_url
          timeout := timeout
          sandbox := sandbox
          headers := [("X-API-Key", api_key),
                      ("User-Agent", "idswyft-python/2.0.0"),
                      ("X-SDK-Version", "2.0.0"),
                      ("X-SDK-Language", "python")] }

/-- C8: constructing a client with an empty API key raises
`ValueError("API key is required")`; with any non-empty key construction
succeeds, storing the key.  `client_init` is a pure function of its
arguments (it takes no `TransportOutcome`), so construction issues no
network request in either case. -/
theorem c8_init_requires_api_key (api_key base_url : String) (timeout : Nat) (sandbox : Bool) :
    (api_key = "" → client_init api_key base_url timeout sandbox = .error "API key is required")
    ∧ (api_key ≠ "" → ∃ cfg, client_init api_key base_url timeout sandbox = .ok cfg
        ∧ cfg.api_key = api_key ∧ ("X-API-Key", api_key) ∈ cfg.headers) := by
  constructor
  · intro h; simp [client_init, h]
  · intro h
    refine ⟨⟨api_key, rstripSlashes base_url, timeout, sandbox,
      [("X-API-Key", api_key), ("User-Agent", "idswyft-python/2.0.0"),
       ("X-SDK-Version", "2.0.0"), ("X-SDK-Language", "python")]⟩, ?_, rfl, ?_⟩
    · simp [client_init, h]
    · simp

/-- Witness for C8: the empty key is rejected, `"sk_test"` is accepted. -/
theorem c8_init_requires_api_key_witness :
    client_init "" "https://api.idswyft.com" 30 false = .error "API key is required"
    ∧ ∃ cfg, client_init "sk_test" "https://api.idswyft.com" 30 false = .ok cfg
        ∧ cfg.api_key = "sk_test" ∧ ("X-API-Key", "sk_test") ∈ cfg.headers :=
  ⟨(c8_init_requires_api_key "" "https://api.idswyft.com" 30 false).1 rfl,
   (c8_init_requires_api_key "sk_test" "https://api.idswyft.com" 30 false).2 (by decide)⟩

/-- The method and endpoint of one `_make_request` call. -/
structure RequestLine where
  httpMethod : String
  endpoint : String
deriving DecidableEq

/-- The request issued by the first `update_webhook` definition
(client.py lines 457-469): `PATCH /api/verify/{verification_id}/webhook`. -/
def update_webhook_v1_request (verification_id : String) : RequestLine :=
  { httpMethod := "PATCH", endpoint := "/api/verify/" ++ verification_id ++ "/webhook" }

/-- The request issued by the second `update_webhook` definition
(client.py lines 585-612): `PUT /api/webhooks/{webhook_id}`. -/
def update_webhook_request (webhook_id : String) : RequestLine :=
  { httpMethod := "PUT", endpoint := "/api/webhooks/" ++ webhook_id }

/-- Assignment into a Python class dictionary: a later `def` with the same
name replaces the earlier entry. -/
def pyClassAssign (d : List (String × (String → RequestLine))) (k : String)
    (v : String → RequestLine) : List (String × (String → RequestLine)) :=
  d.filter (fun e => e.1 ≠ k) ++ [(k, v)]

/-- The two `update_webhook` definitions of the `IdswyftClient` class body,
in source order (lines 457 and 585). -/
def update_webhook_defs : List (String × (String → RequestLine)) :=
  [("update_webhook", update_webhook_v1_request),
   ("update_webhook", update_webhook_request)]

/-- The class dictionary resulting from executing those definitions in
order. -/
def idswyftClientDict : List (String × (String → RequestLine)) :=
  update_webhook_defs.foldl (fun d kv => pyClassAssign d kv.1 kv.2) []

/-- C9: the class defines `update_webhook` twice and the second definition
shadows the first: every `client.update_webhook(...)` call resolves to the
variant issuing `PUT /api/webhooks/{webhook_id}`, and the earlier
`PATCH /api/verify/{verification_id}/webhook` variant is unreachable (the
resolved method never produces its request). -/
theorem c9_update_webhook_shadowed :
    List.lookup "update_webhook" idswyftClientDict = some update_webhook_request
    ∧ (∀ webhook_id, update_webhook_request webhook_id =
        { httpMethod := "PUT", endpoint := "/api/webhooks/" ++ webhook_id })
    ∧ (∀ verification_id, update_webhook_v1_request verification_id =
        { httpMethod := "PATCH", endpoint := "/api/verify/" ++ verification_id ++ "/webhook" })
    ∧ (∀ a b, update_webhook_request a ≠ update_webhook_v1_request b) := by
  refine ⟨rfl, fun _ => rfl, fun _ => rfl, ?_⟩
  intro a b h
  have := congrArg RequestLine.httpMethod h
  simp [update_webhook_request, update_webhook_v1_request] at this

/-- Witness for C10: a concrete 204 No Content response. -/
theorem c10_other_2xx_rejected_witness :
    ∃ m c d, _make_request 30 (.response 204 none "") = .error (.apiError m 204 c d)
      ∧ (IdswyftExc.apiError m 204 c d).pyStatusCode = some 204 :=
  c10_other_2xx_rejected 30 204 none "" (by decide) (by decide) (by decide) (by decide)

/-- A value placed into the outgoing form data: a string, a bool, a list
(webhook events), or the JSON serialization `json.dumps(m)` of a metadata
dict. -/
inductive FormValue where
  | str (s : String)
  | bool (b : Bool)
  | strList (xs : List String)
  | jsonStr (m : PyDict)

/-- `if v: data[k] = v` for an optional string parameter: Python truthiness
drops both `None` and `""`. -/
def optTruthyStr (k : String) : Option String → List (String × FormValue)
  | some s => if s = "" then [] else [(k, .str s)]
  | none => []

/-- `if metadata: data["metadata"] = json.dumps(metadata)`: dropped when
`None` or an empty dict. -/
def optTruthyMeta : Option PyDict → List (String × FormValue)
  | some [] => []
  | some (kv :: rest) => [("metadata", .jsonStr (kv :: rest))]
  | none => []

/-- `if sandbox is not None: data["sandbox"] = sandbox`: only `None` is
dropped; `False` is sent. -/
def optNotNoneBool (k : String) : Option Bool → List (String × FormValue)
  | some b => [(k, .bool b)]
  | none => []

/-- `if events: data["events"] = events`: truthiness drops `None` and the
empty list. -/
def optTruthyList (k : String) : Option (List String) → List (String × FormValue)
  | some xs => if xs = [] then [] else [(k, .strList xs)]
  | none => []

/-- `if events is not None: data["events"] = events`: only `None` is
dropped; the empty list is sent. -/
def optNotNoneList (k : String) : Option (List String) → List (String × FormValue)
  | some xs => [(k, .strList xs)]
  | none => []

/-- `if secret is not None: data["secret"] = secret`: only `None` is
dropped; the empty string is sent. -/
def optNotNoneStr (k : String) : Option String → List (String × FormValue)
  | some s => [(k, .str s)]
  | none => []

/-- `if limit: params[k] = str(limit)` for an optional integer query
parameter: truthiness drops both `None` and `0`. -/
def optTruthyInt (k : String) : Option Int → List (String × String)
  | some n => if n = 0 then [] else [(k, toString n)]
  | none => []

/-- `if v: params[k] = v` for an optional string query parameter. -/
def optTruthyParam (k : String) : Option String → List (String × String)
  | some s => if s = "" then [] else [(k, s)]
  | none => []

@[simp] theorem mem_optTruthyStr (k k' : String) (x : FormValue) (v : Option String) :
    (k', x) ∈ optTruthyStr k v ↔ k' = k ∧ ∃ s, v = some s ∧ s ≠ "" ∧ x = .str s := by
  cases v with
  | none => simp [optTruthyStr]
  | some s =>
    by_cases h : s = "" <;> simp [optTruthyStr, h]

@[simp] theorem mem_optTruthyMeta (k' : String) (x : FormValue) (v : Option PyDict) :
    (k', x) ∈ optTruthyMeta v ↔
      k' = "metadata" ∧ ∃ m, v = some m ∧ m ≠ [] ∧ x = .jsonStr m := by
  cases v with
  | none => simp [optTruthyMeta]
  | some m =>
    cases m with
    | nil => simp [optTruthyMeta]
    | cons kv rest => simp [optTruthyMeta]

@[simp] theorem mem_optNotNoneBool (k k' : String) (x : FormValue) (v : Option Bool) :
    (k', x) ∈ optNotNoneBool k v ↔ k' = k ∧ ∃ b, v = some b ∧ x = .bool b := by
  cases v <;> simp [optNotNoneBool]

@[simp] theorem mem_optTruthyList (k k' : String) (x : FormValue) (v : Option (List String)) :
    (k', x) ∈ optTruthyList k v ↔ k' = k ∧ ∃ xs, v = some xs ∧ xs ≠ [] ∧ x = .strList xs := by
  cases v with
  | none => simp [optTruthyList]
  | some xs =>
    by_cases h : xs = [] <;> simp [optTruthyList, h]

@[simp] theorem mem_optNotNoneList (k k' : String) (x : FormValue) (v : Option (List String)) :
    (k', x) ∈ optNotNoneList k v ↔ k' = k ∧ ∃ xs, v = some xs ∧ x = .strList xs := by
  cases v <;> simp [optNotNoneList]

@[simp] theorem mem_optNotNoneStr (k k' : String) (x : FormValue) (v : Option String) :
    (k', x) ∈ optNotNoneStr k v ↔ k' = k ∧ ∃ s, v = some s ∧ x = .str s := by
  cases v <;> simp [optNotNoneStr]

@[simp] theorem mem_optTruthyInt (k k' : String) (x : String) (v : Option Int) :
    (k', x) ∈ optTruthyInt k v ↔ k' = k ∧ ∃ n, v = some n ∧ n ≠ 0 ∧ x = toString n := by
  cases v with
  | none => simp [optTruthyInt]
  | some n =>
    by_cases h : n = 0 <;> simp [optTruthyInt, h]

@[simp] theorem mem_optTruthyParam (k k' : String) (x : String) (v : Option String) :
    (k', x) ∈ optTruthyParam k v ↔ k' = k ∧ ∃ s, v = some s ∧ s ≠ "" ∧ x = s := by
  cases v with
  | none => simp [optTruthyParam]
  | some s =>
    by_cases h : s = "" <;> simp [optTruthyParam, h]

/-- Form data built by `start_verification` (client.py lines 169-189). -/
def start_verification_data (user_id : String) (sandbox : Option Bool) :
    List (String × FormValue) :=
  [("user_id", .str user_id)] ++ optNotNoneBool "sandbox" sandbox

/-- Form data built by `verify_document` (client.py lines 223-233). -/
def verify_document_data (document_type : String)
    (verification_id user_id webhook_url : Option String) (metadata : Option PyDict) :
    List (String × FormValue) :=
  [("document_type", .str document_type)]
    ++ optTruthyStr "verification_id" verification_id
    ++ optTruthyStr "user_id" user_id
    ++ optTruthyStr "webhook_url" webhook_url
    ++ optTruthyMeta metadata

/-- Form data built by `verify_back_of_id` (client.py lines 261-267). -/
def verify_back_of_id_data (verification_id document_type : String)
    (metadata : Option PyDict) : List (String × FormValue) :=
  [("verification_id", .str verification_id), ("document_type", .str document_type)]
    ++ optTruthyMeta metadata

/-- Form data built by `live_capture` (client.py lines 295-303). -/
def live_capture_data (verification_id live_image_data : String)
    (challenge_response : Option String) (metadata : Option PyDict) :
    List (String × FormValue) :=
  [("verification_id", .str verification_id), ("live_image_data", .str live_image_data)]
    ++ optTruthyStr "challenge_response" challenge_response
    ++ optTruthyMeta metadata

/-- Form data built by `generate_live_token` (client.py lines 323-326). -/
def generate_live_token_data (verification_id : String) (challenge_type : Option String) :
    List (String × FormValue) :=
  [("verification_id", .str verification_id)]
    ++ optTruthyStr "challenge_type" challenge_type

/-- Query parameters built by `get_verification_history`
(client.py lines 361-365). -/
def get_verification_history_params (limit offset : Option Int) : List (String × String) :=
  optTruthyInt "limit" limit ++ optTruthyInt "offset" offset

/-- Form data built by `verify_selfie` (client.py lines 392-404). -/
def verify_selfie_data (verification_id reference_document_id user_id webhook_url : Option String)
    (metadata : Option PyDict) : List (String × FormValue) :=
  optTruthyStr "verification_id" verification_id
    ++ optTruthyStr "reference_document_id" reference_document_id
    ++ optTruthyStr "user_id" user_id
    ++ optTruthyStr "webhook_url" webhook_url
    ++ optTruthyMeta metadata

/-- Query parameters built by `list_verifications` (client.py lines 445-453). -/
def list_verifications_params (statusFilter : Option String) (limit offset : Option Int)
    (user_id : Option String) : List (String × String) :=
  optTruthyParam "status" statusFilter
    ++ optTruthyInt "limit" limit
    ++ optTruthyInt "offset" offset
    ++ optTruthyParam "user_id" user_id

/-- Query parameters built by `get_api_activity` (client.py lines 539-547). -/
def get_api_activity_params (limit offset : Option Int) (start_date end_date : Option String) :
    List (String × String) :=
  optTruthyInt "limit" limit
    ++ optTruthyInt "offset" offset
    ++ optTruthyParam "start_date" start_date
    ++ optTruthyParam "end_date" end_date

/-- Form data built by `register_webhook` (client.py lines 568-572): note
the truthiness checks `if events:` and `if secret:`. -/
def register_webhook_data (url : String) (events : Option (List String))
    (secret : Option String) : List (String × FormValue) :=
  [("url", .str url)]
    ++ optTruthyList "events" events
    ++ optTruthyStr "secret" secret

/-- Form data built by the effective (second) `update_webhook`
(client.py lines 604-610): `url` is truthiness-checked but `events` and
`secret` are checked against `None`, so falsy values for them are sent. -/
def update_webhook_data (url : Option String) (events : Option (List String))
    (secret : Option String) : List (String × FormValue) :=
  optTruthyStr "url" url
    ++ optNotNoneList "events" events
    ++ optNotNoneStr "secret" secret

/-- Query parameters built by `get_webhook_deliveries`
(client.py lines 655-659). -/
def get_webhook_deliveries_params (limit offset : Option Int) : List (String × String) :=
  optTruthyInt "limit" limit ++ optTruthyInt "offset" offset

/-- C5 (amended): an optional parameter the caller omits never appears as a
key in the outgoing form data or query parameters; the effective
`update_webhook` checks `events`/`secret` against `None` and therefore
preserves explicitly provided falsy values (an empty events list, an empty
secret) distinct from omission; but truthiness-guarded parameters —
`limit`/`offset` of 0, empty strings — are dropped exactly like omissions. -/
theorem c5_optional_parameter_handling :
    ((∀ uid, "sandbox" ∉ (start_verification_data uid none).map Prod.fst)
     ∧ (∀ dt vid uid wh, "metadata" ∉ (verify_document_data dt vid uid wh none).map Prod.fst)
     ∧ (∀ dt uid wh m, "verification_id" ∉ (verify_document_data dt none uid wh m).map Prod.fst)
     ∧ (∀ dt vid wh m, "user_id" ∉ (verify_document_data dt vid none wh m).map Prod.fst)
     ∧ (∀ dt vid uid m, "webhook_url" ∉ (verify_document_data dt vid uid none m).map Prod.fst)
     ∧ (∀ vid dt, "metadata" ∉ (verify_back_of_id_data vid dt none).map Prod.fst)
     ∧ (∀ vid img m, "challenge_response" ∉ (live_capture_data vid img none m).map Prod.fst)
     ∧ (∀ vid img cr, "metadata" ∉ (live_capture_data vid img cr none).map Prod.fst)
     ∧ (∀ vid, "challenge_type" ∉ (generate_live_token_data vid none).map Prod.fst)
     ∧ (∀ off, "limit" ∉ (get_verification_history_params none off).map Prod.fst)
     ∧ (∀ lim, "offset" ∉ (get_verification_history_params lim none).map Prod.fst)
     ∧ (∀ rid uid wh m, "verification_id" ∉ (verify_selfie_data none rid uid wh m).map Prod.fst)
     ∧ (∀ vid uid wh m,
         "reference_document_id" ∉ (verify_selfie_data vid none uid wh m).map Prod.fst)
     ∧ (∀ st lim off, "user_id" ∉ (list_verifications_params st lim off none).map Prod.fst)
     ∧ (∀ lim off uid, "status" ∉ (list_verifications_params none lim off uid).map Prod.fst)
     ∧ (∀ lim off ed, "start_date" ∉ (get_api_activity_params lim off none ed).map Prod.fst)
     ∧ (∀ url sec, "events" ∉ (register_webhook_data url none sec).map Prod.fst)
     ∧ (∀ url ev, "secret" ∉ (register_webhook_data url ev none).map Prod.fst)
     ∧ (∀ ev sec, "url" ∉ (update_webhook_data none ev sec).map Prod.fst)
     ∧ (∀ url sec, "events" ∉ (update_webhook_data url none sec).map Prod.fst)
     ∧ (∀ url ev, "secret" ∉ (update_webhook_data url ev none).map Prod.fst)
     ∧ (∀ off, "limit" ∉ (get_webhook_deliveries_params none off).map Prod.fst))
    ∧ ((∀ url sec, ("events", FormValue.strList []) ∈ update_webhook_data url (some []) sec)
     ∧ (∀ url ev, ("secret", FormValue.str "") ∈ update_webhook_data url ev (some ""))
     ∧ (∀ url sec, update_webhook_data url (some []) sec ≠ update_webhook_data url none sec))
    ∧ ((∀ off, get_verification_history_params (some 0) off =
          get_verification_history_params none off)
     ∧ (∀ lim, get_verification_history_params lim (some 0) =
          get_verification_history_params lim none)
     ∧ (∀ url sec, register_webhook_data url (some []) sec =
          register_webhook_data url none sec)) := by
  refine ⟨⟨?_, ?_, ?_, ?_, ?_, ?_, ?_, ?_, ?_, ?_, ?_, ?_, ?_, ?_, ?_, ?_, ?_, ?_, ?_, ?_, ?_, ?_⟩,
    ⟨?_, ?_, ?_⟩, ⟨?_, ?_, ?_⟩⟩
  · intro uid; simp [start_verification_data]
  · intro dt vid uid wh; simp [verify_document_data]
  · intro dt uid wh m; simp [verify_document_data]
  · intro dt vid wh m; simp [verify_document_data]
  · intro dt vid uid m; simp [verify_document_data]
  · intro vid dt; simp [verify_back_of_id_data]
  · intro vid img m; simp [live_capture_data]
  · intro vid img cr; simp [live_capture_data]
  · intro vid; simp [generate_live_token_data]
  · intro off; simp [get_verification_history_params]
  · intro lim; simp [get_verification_history_params]
  · intro rid uid wh m; simp [verify_selfie_data]
  · intro vid uid wh m; simp [verify_selfie_data]
  · intro st lim off; simp [list_verifications_params]
  · intro lim off uid; simp [list_verifications_params]
  · intro lim off ed; simp [get_api_activity_params]
  · intro url sec; simp [register_webhook_data]
  · intro url ev; simp [register_webhook_data]
  · intro ev sec; simp [update_webhook_data]
  · intro url sec; simp [update_webhook_data]
  · intro url ev; simp [update_webhook_data]
  · intro off; simp [get_webhook_deliveries_params]
  · intro url sec; simp [update_webhook_data, optNotNoneList]
  · intro url ev; simp [update_webhook_data, optNotNoneStr]
  · intro url sec h
    have h1 : "events" ∈ (update_webhook_data url (some []) sec).map Prod.fst := by
      simp [update_webhook_data]
    rw [h] at h1
    simp [update_webhook_data] at h1
  · intro off; rfl
  · intro lim; cases lim <;> rfl
  · intro url sec; rfl

/-- Counterexample for C5: `get_verification_history` with an explicitly
provided `limit`/`offset` of 0 produces the same (empty) query parameters
as full omission — the `limit` key is not preserved, contradicting the
claim that 0 is kept distinct from omission. -/
theorem c5_counterexample :
    get_verification_history_params (some 0) (some 0) = []
    ∧ get_verification_history_params (some 0) (some 0) =
        get_verification_history_params none none
    ∧ "limit" ∉ (get_verification_history_params (some 0) (some 0)).map Prod.fst := by
  refine ⟨rfl, rfl, ?_⟩
  simp [get_verification_history_params]

/-- Witness for C5: concrete instances of the omission and preservation
parts. -/
theorem c5_optional_parameter_handling_witness :
    "metadata" ∉
      (verify_document_data "passport" (some "verif_123") none none none).map Prod.fst
    ∧ ("events", FormValue.strList []) ∈
        update_webhook_data (some "https://example.com/hook") (some []) none :=
  ⟨c5_optional_parameter_handling.1.2.1 "passport" (some "verif_123") none none,
   c5_optional_parameter_handling.2.1.1 (some "https://example.com/hook") none⟩

/-- Reduction modulo 2^32, the word width of SHA-256 arithmetic. -/
def w32 (n : Nat) : Nat := n % 4294967296

/-- Right rotation of a 32-bit word. -/
def rotr32 (n x : Nat) : Nat := w32 ((x >>> n) ||| (x <<< (32 - n)))

/-- SHA-256 message-schedule sigma-0. -/
def ssig0 (x : Nat) : Nat := (rotr32 7 x) ^^^ (rotr32 18 x) ^^^ (x >>> 3)

/-- SHA-256 message-schedule sigma-1. -/
def ssig1 (x : Nat) : Nat := (rotr32 17 x) ^^^ (rotr32 19 x) ^^^ (x >>> 10)

/-- SHA-256 compression Sigma-0. -/
def bsig0 (x : Nat) : Nat := (rotr32 2 x) ^^^ (rotr32 13 x) ^^^ (rotr32 22 x)

/-- SHA-256 compression Sigma-1. -/
def bsig1 (x : Nat) : Nat := (rotr32 6 x) ^^^ (rotr32 11 x) ^^^ (rotr32 25 x)

/-- SHA-256 choice function. -/
def chF (x y z : Nat) : Nat := (x &&& y) ^^^ ((x ^^^ 4294967295) &&& z)

/-- SHA-256 majority function. -/
def majF (x y z : Nat) : Nat := (x &&& y) ^^^ (x &&& z) ^^^ (y &&& z)

/-- The 64 SHA-256 round constants. -/
def sha256K : List Nat :=
  [1116352408, 1899447441, 3049323471, 3921009573, 961987163, 1508970993,
   2453635748, 2870763221, 3624381080, 310598401, 607225278, 1426881987,
   1925078388, 2162078206, 2614888103, 3248222580, 3835390401, 4022224774,
   264347078, 604807628, 770255983, 1249150122, 1555081692, 1996064986,
   2554220882, 2821834349, 2952996808, 3210313671, 3336571891, 3584528711,
   113926993, 338241895, 666307205, 773529912, 1294757372, 1396182291,
   1695183700, 1986661051, 2177026350, 2456956037, 2730485921, 2820302411,
   3259730800, 3345764771, 3516065817, 3600352804, 4094571909, 275423344,
   430227734, 506948616, 659060556, 883997877, 958139571, 1322822218,
   1537002063, 1747873779, 1955562222, 2024104815, 2227730452, 2361852424,
   2428436474, 2756734187, 3204031479, 3329325298]

/-- The SHA-256 initial hash state. -/
def sha256H0 : List Nat :=
  [1779033703, 3144134277, 1013904242, 2773480762,
   1359893119, 2600822924, 528734635, 1541459225]

/-- Big-endian 32-bit words from a byte list. -/
def bytesToWords : List Nat → List Nat
  | a :: b :: c :: d :: rest => (((a * 256 + b) * 256 + c) * 256 + d) :: bytesToWords rest
  | _ => []

/-- One message-schedule extension step: append
`sigma1(w[t-2]) + w[t-7] + sigma0(w[t-15]) + w[t-16]`. -/
def scheduleStep (w : List Nat) : List Nat :=
  w ++ [w32 (ssig1 (w.getD (w.length - 2) 0) + w.getD (w.length - 7) 0
    + ssig0 (w.getD (w.length - 15) 0) + w.getD (w.length - 16) 0)]

/-- Iterate the message-schedule extension. -/
def scheduleExtend : Nat → List Nat → List Nat
  | 0, w => w
  | n + 1, w => scheduleExtend n (scheduleStep w)

/-- One SHA-256 round on the 8-word working state, given one `(K, W)`
pair. -/
def compressStep (st : List Nat) (kw : Nat × Nat) : List Nat :=
  let a := st.getD 0 0
  let b := st.getD 1 0
  let c := st.getD 2 0
  let d := st.getD 3 0
  let e := st.getD 4 0
  let f := st.getD 5 0
  let g := st.getD 6 0
  let h := st.getD 7 0
  let t1 := w32 (h + bsig1 e + chF e f g + kw.1 + kw.2)
  let t2 := w32 (bsig0 a + majF a b c)
  [w32 (t1 + t2), a, b, c, w32 (d + t1), e, f, g]

/-- Process one 64-byte chunk: run the 64 rounds and add the result into
the running hash state. -/
def sha256Chunk (h : List Nat) (chunk : List Nat) : List Nat :=
  let w := scheduleExtend 48 (bytesToWords chunk)
  let st := (sha256K.zip w).foldl compressStep h
  List.zipWith (fun x y => w32 (x + y)) h st

/-- Split a byte list into 64-byte chunks (fuel-driven recursion). -/
def chunksOf64 : Nat → List Nat → List (List Nat)
  | 0, _ => []
  | _, [] => []
  | fuel + 1, bs => bs.take 64 :: chunksOf64 fuel (bs.drop 64)

/-- The 8-byte big-endian encoding of the message bit length. -/
def lenBytes64 (n : Nat) : List Nat :=
  [n >>> 56 &&& 255, n >>> 48 &&& 255, n >>> 40 &&& 255, n >>> 32 &&& 255,
   n >>> 24 &&& 255, n >>> 16 &&& 255, n >>> 8 &&& 255, n &&& 255]

/-- SHA-256 padding: `0x80`, zeros to 56 mod 64, then the bit length. -/
def sha256Pad (msg : List Nat) : List Nat :=
  msg ++ [128] ++ List.replicate ((55 + 64 - msg.length % 64) % 64) 0
    ++ lenBytes64 (8 * msg.length)

/-- Big-endian bytes of one 32-bit word. -/
def wordBytes (w : Nat) : List Nat :=
  [w >>> 24 &&& 255, w >>> 16 &&& 255, w >>> 8 &&& 255, w &&& 255]

/-- SHA-256 of a byte list, as the 32-byte digest. -/
def sha256Bytes (msg : List Nat) : List Nat :=
  let padded := sha256Pad msg
  ((chunksOf64 padded.length padded).foldl sha256Chunk sha256H0).map wordBytes |>.flatten

/-- UTF-8 encoding of one character (`str.encode("utf-8")`). -/
def utf8Char (c : Char) : List Nat :=
  let n := c.toNat
  if n < 128 then [n]
  else if n < 2048 then [192 + n / 64, 128 + n % 64]
  else if n < 65536 then [224 + n / 4096, 128 + n / 64 % 64, 128 + n % 64]
  else [240 + n / 262144, 128 + n / 4096 % 64, 128 + n / 64 % 64, 128 + n % 64]

/-- UTF-8 encoding of a string. -/
def utf8Encode (s : String) : List Nat := (s.data.map utf8Char).flatten

/-- HMAC-SHA256 over byte lists (`hmac.new(key, msg, hashlib.sha256)`),
with the SHA-256 block size of 64 bytes. -/
def hmacSha256 (key msg : List Nat) : List Nat :=
  let k0 := if 64 < key.length then sha256Bytes key else key
  let kp := k0 ++ List.replicate (64 - k0.length) 0
  sha256Bytes ((kp.map (fun b => b ^^^ 92)) ++ sha256Bytes ((kp.map (fun b => b ^^^ 54)) ++ msg))

/-- The hex character of a nibble. -/
def nibbleChar : Nat → Char
  | 0 => '0' | 1 => '1' | 2 => '2' | 3 => '3' | 4 => '4' | 5 => '5' | 6 => '6' | 7 => '7'
  | 8 => '8' | 9 => '9' | 10 => 'a' | 11 => 'b' | 12 => 'c' | 13 => 'd' | 14 => 'e' | _ => 'f'

/-- The sixteen lowercase hex digits. -/
def hexDigits : List Char := (List.range 16).map nibbleChar

/-- The two hex characters of a byte (`bytes.hex()` / `.hexdigest()`). -/
def byteHexChars (b : Nat) : List Char := [nibbleChar (b / 16 % 16), nibbleChar (b % 16)]

/-- Lowercase hex rendering of a byte list. -/
def bytesHexChars (bs : List Nat) : List Char := (bs.map byteHexChars).flatten

/-- `hmac.new(secret.encode("utf-8"), payload.encode("utf-8"),
hashlib.sha256).hexdigest()` — the expected signature computed inside
`verify_webhook_signature`. -/
def hmacSha256Hex (secret payload : String) : String :=
  String.mk (bytesHexChars (hmacSha256 (utf8Encode secret) (utf8Encode payload)))

/-- Whether `pat` is a prefix of `s`. -/
def leadsWith : List Char → List Char → Bool
  | [], _ => true
  | _ :: _, [] => false
  | p :: ps, c :: cs => p == c && leadsWith ps cs

/-- Python's `str.replace(old, new)`: replace every non-overlapping
occurrence, scanning left to right (fuel-driven; the fuel is the length of
the string being scanned). -/
def replChars : Nat → List Char → List Char → List Char → List Char
  | 0, s, _, _ => s
  | fuel + 1, s, pat, rep =>
    match s with
    | [] => []
    | c :: cs =>
      if leadsWith pat (c :: cs) then rep ++ replChars fuel ((c :: cs).drop pat.length) pat rep
      else c :: replChars fuel cs pat rep

/-- `s.replace(pat, rep)` on strings. -/
def pyReplace (s pat rep : String) : String :=
  String.mk (replChars s.data.length s.data pat.data rep.data)

/-- `IdswyftClient.verify_webhook_signature` (client.py lines 685-722):
falsy (empty) inputs fail closed; otherwise every `"sha256="` occurrence is
removed from the signature by `str.replace` and the result is compared
(constant-time via `hmac.compare_digest`, here plain equality of the
compared strings) with the HMAC-SHA256 hex digest of the payload keyed by
the secret. -/
def verify_webhook_signature (payload signature secret : String) : Bool :=
  if payload == "" || signature == "" || secret == "" then false
  else hmacSha256Hex secret payload == pyReplace signature "sha256=" ""

/-- Modelled from the spec: the claim's reading of the signature
normalization — "stripping an optional `sha256=` prefix" removes one
leading `sha256=` and nothing else.  Used only to state the claim; the
source's `str.replace` removes every occurrence. -/
def stripSha256Once (s : String) : String :=
  if leadsWith "sha256=".data s.data then String.mk (s.data.drop 7) else s

/-- `pat` occurs as a contiguous substring of `s`. -/
def Occurs (pat s : List Char) : Prop := ∃ a b, s = a ++ (pat ++ b)

theorem leadsWith_iff (p : List Char) : ∀ s, leadsWith p s = true ↔ ∃ t, s = p ++ t := by
  induction p with
  | nil => intro s; simp [leadsWith]
  | cons x xs ih =>
    intro s
    cases s with
    | nil => simp [leadsWith]
    | cons c cs =>
      simp only [leadsWith, Bool.and_eq_true, beq_iff_eq, ih, List.cons_append,
        List.cons.injEq]
      constructor
      · rintro ⟨rfl, t, rfl⟩; exact ⟨t, rfl, rfl⟩
      · rintro ⟨t, rfl, rfl⟩; exact ⟨rfl, t, rfl⟩

theorem leadsWith_append (p t : List Char) : leadsWith p (p ++ t) = true :=
  (leadsWith_iff p (p ++ t)).2 ⟨t, rfl⟩

theorem replChars_nil (pat rep : List Char) : ∀ fuel, replChars fuel [] pat rep = [] := by
  intro fuel; cases fuel <;> rfl

theorem replChars_eq_of_not_occurs (pat rep : List Char) :
    ∀ fuel s, s.length ≤ fuel → ¬ Occurs pat s → replChars fuel s pat rep = s := by
  intro fuel
  induction fuel with
  | zero => intro s _ _; rfl
  | succ n ih =>
    intro s hlen hocc
    cases s with
    | nil => rfl
    | cons c cs =>
      have hlw : leadsWith pat (c :: cs) = false := by
        rcases hl : leadsWith pat (c :: cs) with _ | _
        · rfl
        · obtain ⟨t, ht⟩ := (leadsWith_iff pat (c :: cs)).1 hl
          exact absurd ⟨[], t, by simpa using ht⟩ hocc
      simp only [replChars, hlw, Bool.false_eq_true, if_false, List.cons.injEq, true_and]
      refine ih cs (by simpa using Nat.le_of_succ_le_succ hlen) ?_
      rintro ⟨a, b, rfl⟩
      exact hocc ⟨c :: a, b, rfl⟩

theorem replChars_fuel_irrelevant (pat rep : List Char) (hp : pat ≠ []) :
    ∀ f g s, s.length ≤ f → s.length ≤ g → replChars f s pat rep = replChars g s pat rep := by
  intro f
  induction f with
  | zero =>
    intro g s hf _
    have : s = [] := List.length_eq_zero.1 (Nat.le_zero.1 hf)
    subst this
    rw [replChars_nil, replChars_nil]
  | succ n ih =>
    intro g s hf hg
    cases s with
    | nil => rw [replChars_nil, replChars_nil]
    | cons c cs =>
      have hgpos : 0 < g := by
        have : 0 < (c :: cs).length := by simp
        omega
      obtain ⟨m, rfl⟩ : ∃ m, g = m + 1 := ⟨g - 1, by omega⟩
      have hplen : 1 ≤ pat.length := by
        cases pat with
        | nil => exact absurd rfl hp
        | cons _ _ => simp
      rcases hl : leadsWith pat (c :: cs) with _ | _
      · simp only [replChars, hl, Bool.false_eq_true, if_false, List.cons.injEq, true_and]
        exact ih m cs (by simpa using Nat.le_of_succ_le_succ hf)
          (by simpa using Nat.le_of_succ_le_succ hg)
      · obtain ⟨t, ht⟩ := (leadsWith_iff pat (c :: cs)).1 hl
        simp only [replChars, hl, if_true]
        refine congrArg (rep ++ ·) ?_
        have hdrop : ((c :: cs).drop pat.length).length = (c :: cs).length - pat.length := by
          simp
        refine ih m ((c :: cs).drop pat.length) ?_ ?_
        · have := (c :: cs).length; rw [hdrop]
          have hcs : (c :: cs).length ≤ n + 1 := hf
          omega
        · rw [hdrop]
          have hcs : (c :: cs).length ≤ m + 1 := hg
          omega

theorem replChars_pat_append (pat rep : List Char) (hp : pat ≠ []) :
    ∀ fuel s, pat.length + s.length ≤ fuel →
      replChars fuel (pat ++ s) pat rep = rep ++ replChars s.length s pat rep := by
  intro fuel s h
  obtain ⟨p, ps, rfl⟩ := List.exists_cons_of_ne_nil hp
  have hplen : 1 ≤ (p :: ps).length := by simp
  obtain ⟨n, rfl⟩ : ∃ n, fuel = n + 1 := ⟨fuel - 1, by omega⟩
  have hlw : leadsWith (p :: ps) ((p :: ps) ++ s) = true := leadsWith_append _ s
  have hstep : replChars (n + 1) ((p :: ps) ++ s) (p :: ps) rep =
      rep ++ replChars n (((p :: ps) ++ s).drop (p :: ps).length) (p :: ps) rep := by
    simp only [List.cons_append, replChars]
    rw [← List.cons_append]
    simp only [hlw, if_true]
  rw [hstep, List.drop_left]
  refine congrArg (rep ++ ·) ?_
  refine replChars_fuel_irrelevant (p :: ps) rep hp n s.length s ?_ le_rfl
  simp at h
  omega

theorem nibbleChar_mem_hexDigits : ∀ n, nibbleChar n ∈ hexDigits := by
  intro n
  rcases n with _ | _ | _ | _ | _ | _ | _ | _ | _ | _ | _ | _ | _ | _ | _ | n
  case succ =>
    have h15 : nibbleChar (n + 15) = nibbleChar 15 := rfl
    rw [h15]
    decide
  all_goals decide

theorem bytesHexChars_mem_hexDigits (bs : List Nat) :
    ∀ c ∈ bytesHexChars bs, c ∈ hexDigits := by
  intro c hc
  simp only [bytesHexChars, List.mem_flatten, List.mem_map] at hc
  obtain ⟨l, ⟨b, _, rfl⟩, hcl⟩ := hc
  simp only [byteHexChars, List.mem_cons, List.not_mem_nil, or_false] at hcl
  rcases hcl with rfl | rfl <;> exact nibbleChar_mem_hexDigits _

theorem hmacSha256Hex_chars_hex (secret payload : String) :
    ∀ c ∈ (hmacSha256Hex secret payload).data, c ∈ hexDigits :=
  bytesHexChars_mem_hexDigits _

theorem not_occurs_sha_of_hex (s : List Char) (hs : ∀ c ∈ s, c ∈ hexDigits) :
    ¬ Occurs "sha256=".data s := by
  rintro ⟨a, b, rfl⟩
  have hmem : '=' ∈ a ++ ("sha256=".data ++ b) := by
    refine List.mem_append_right a (List.mem_append_left b ?_)
    decide
  exact absurd (hs '=' hmem) (by decide)

theorem string_append_data (a b : String) : (a ++ b).data = a.data ++ b.data := rfl

theorem sha_prefix_ne_empty (x : String) : "sha256=" ++ x ≠ "" := by
  intro h
  have := congrArg (fun s => s.data.length) h
  simp [string_append_data] at this

theorem pyReplace_prefix_no_occur (d : String) (hd : ¬ Occurs "sha256=".data d.data) :
    pyReplace ("sha256=" ++ d) "sha256=" "" = d := by
  have hp : "sha256=".data ≠ [] := by decide
  show String.mk (replChars ("sha256=" ++ d).data.length ("sha256=" ++ d).data
    "sha256=".data "".data) = d
  rw [string_append_data]
  rw [replChars_pat_append "sha256=".data "".data hp _ d.data (by simp; omega)]
  rw [replChars_eq_of_not_occurs "sha256=".data "".data d.data.length d.data le_rfl hd]
  rfl

theorem pyReplace_double_no_occur (d : String) (hd : ¬ Occurs "sha256=".data d.data) :
    pyReplace ("sha256=" ++ ("sha256=" ++ d)) "sha256=" "" = d := by
  have hp : "sha256=".data ≠ [] := by decide
  show String.mk (replChars ("sha256=" ++ ("sha256=" ++ d)).data.length
    ("sha256=" ++ ("sha256=" ++ d)).data "sha256=".data "".data) = d
  rw [string_append_data, string_append_data]
  rw [show "sha256=".data ++ ("sha256=".data ++ d.data) =
    "sha256=".data ++ ("sha256=" ++ d).data from by rw [string_append_data]]
  rw [replChars_pat_append "sha256=".data "".data hp _ ("sha256=" ++ d).data
    (by simp [string_append_data]; omega)]
  rw [string_append_data]
  rw [replChars_pat_append "sha256=".data "".data hp _ d.data (by simp; omega)]
  rw [replChars_eq_of_not_occurs "sha256=".data "".data d.data.length d.data le_rfl hd]
  rfl

theorem verify_guard_open (payload signature secret : String) (hp : payload ≠ "")
    (hs : signature ≠ "") (hsec : secret ≠ "") :
    verify_webhook_signature payload signature secret =
      (hmacSha256Hex secret payload == pyReplace signature "sha256=" "") := by
  simp [verify_webhook_signature, hp, hs, hsec]

theorem verify_true_of_no_occur (payload secret sig : String) (hp : payload ≠ "")
    (hsec : secret ≠ "") (hno : ¬ Occurs "sha256=".data sig.data)
    (heq : sig = hmacSha256Hex secret payload) :
    verify_webhook_signature payload ("sha256=" ++ sig) secret = true := by
  rw [verify_guard_open payload _ secret hp (sha_prefix_ne_empty sig) hsec]
  rw [pyReplace_prefix_no_occur sig hno, heq, beq_iff_eq]

theorem verify_false_of_no_occur (payload secret sig : String) (hp : payload ≠ "")
    (hsec : secret ≠ "") (hno : ¬ Occurs "sha256=".data sig.data)
    (hne : sig ≠ hmacSha256Hex secret payload) :
    verify_webhook_signature payload ("sha256=" ++ sig) secret = false := by
  rw [verify_guard_open payload _ secret hp (sha_prefix_ne_empty sig) hsec]
  rw [pyReplace_prefix_no_occur sig hno]
  simp only [beq_eq_false_iff_ne, ne_eq]
  exact fun h => hne h.symm

theorem stripSha256Once_of_leading (x : String) : stripSha256Once ("sha256=" ++ x) = x := by
  have hl : leadsWith "sha256=".data ("sha256=" ++ x).data = true := by
    rw [string_append_data]; exact leadsWith_append _ _
  unfold stripSha256Once
  simp only [hl, if_true]
  rw [string_append_data]
  have h7 : ("sha256=".data).length = 7 := rfl
  rw [← h7, List.drop_left]

theorem sha_prefix_ne_self (x : String) : "sha256=" ++ x ≠ x := by
  intro h
  have := congrArg (fun s => s.data.length) h
  simp [string_append_data] at this
  omega

set_option maxHeartbeats 1000000 in
/-- C2 (amended): `verify_webhook_signature` is a pure total function that
returns `true` exactly when the supplied signature, after removing every
occurrence of `"sha256="` (Python's `str.replace`), equals the HMAC-SHA256
hex digest of the payload keyed by the secret; for every non-empty payload
and secret the correctly prefixed digest verifies, any differing signature
whose text does not contain `"sha256="` — in particular the digest with any
single character flipped to another hex digit — is rejected, and any empty
input yields `false` rather than an exception. -/
theorem c2_verify_webhook_signature_contract :
    (∀ payload secret, payload ≠ "" → secret ≠ "" →
      verify_webhook_signature payload
        ("sha256=" ++ hmacSha256Hex secret payload) secret = true)
    ∧ (∀ payload secret sig, payload ≠ "" → secret ≠ "" →
        ¬ Occurs "sha256=".data sig.data → sig ≠ hmacSha256Hex secret payload →
        verify_webhook_signature payload ("sha256=" ++ sig) secret = false)
    ∧ (∀ payload secret i c, i < (hmacSha256Hex secret payload).data.length →
        payload ≠ "" → secret ≠ "" → c ∈ hexDigits →
        (hmacSha256Hex secret payload).data.getD i c ≠ c →
        verify_webhook_signature payload
          ("sha256=" ++ String.mk ((hmacSha256Hex secret payload).data.set i c)) secret = false)
    ∧ (∀ payload signature secret, payload = "" ∨ signature = "" ∨ secret = "" →
        verify_webhook_signature payload signature secret = false)
    ∧ (∀ payload signature secret,
        verify_webhook_signature payload signature secret = true ↔
          payload ≠ "" ∧ signature ≠ "" ∧ secret ≠ "" ∧
          pyReplace signature "sha256=" "" = hmacSha256Hex secret payload) := by
  refine ⟨?_, ?_, ?_, ?_, ?_⟩
  · intro payload secret hp hsec
    exact verify_true_of_no_occur payload secret _ hp hsec
      (not_occurs_sha_of_hex _ (hmacSha256Hex_chars_hex secret payload)) rfl
  · intro payload secret sig hp hsec hno hne
    exact verify_false_of_no_occur payload secret sig hp hsec hno hne
  · intro payload secret i c h hp hsec hc hne
    obtain ⟨D, hD⟩ : ∃ D, hmacSha256Hex secret payload = D := ⟨_, rfl⟩
    have hDhex := hmacSha256Hex_chars_hex secret payload
    rw [hD] at h hne hDhex ⊢
    refine verify_false_of_no_occur payload secret _ hp hsec ?_ ?_
    · refine not_occurs_sha_of_hex _ ?_
      intro x hx
      rcases List.mem_or_eq_of_mem_set hx with hx2 | rfl
      · exact hDhex x hx2
      · exact hc
    · rw [hD]
      intro heq
      have hdata : D.data.set i c = D.data := congrArg String.data heq
      have h1 : (D.data.set i c)[i]? = D.data[i]? := congrArg (fun m => m[i]?) hdata
      rw [List.getElem?_set_self h] at h1
      apply hne
      rw [List.getD_eq_getElem?_getD, ← h1]
      rfl
  · intro payload signature secret h
    rcases h with rfl | rfl | rfl <;> simp [verify_webhook_signature]
  · intro payload signature secret
    by_cases hp : payload = ""
    · subst hp; simp [verify_webhook_signature]
    · by_cases hs : signature = ""
      · subst hs; simp [verify_webhook_signature]
      · by_cases hsec : secret = ""
        · subst hsec; simp [verify_webhook_signature]
        · rw [verify_guard_open payload signature secret hp hs hsec]
          simp only [beq_iff_eq, ne_eq]
          constructor
          · intro h; exact ⟨hp, hs, hsec, h.symm⟩
          · rintro ⟨-, -, -, h⟩; exact h.symm

/-- Counterexample for C2: on the signature `"sha256=sha256=" ++ digest`,
`str.replace` removes both occurrences and the check succeeds, while the
claim's "strip one optional `sha256=` prefix" normalization leaves
`"sha256=" ++ digest`, which is not the digest — so the claimed iff
characterization is false at this input. -/
theorem c2_counterexample :
    verify_webhook_signature "payload"
      ("sha256=" ++ ("sha256=" ++ hmacSha256Hex "secret" "payload")) "secret" = true
    ∧ stripSha256Once ("sha256=" ++ ("sha256=" ++ hmacSha256Hex "secret" "payload"))
        ≠ hmacSha256Hex "secret" "payload" := by
  constructor
  · rw [verify_guard_open _ _ _ (by decide) (sha_prefix_ne_empty _) (by decide)]
    rw [pyReplace_double_no_occur _
      (not_occurs_sha_of_hex _ (hmacSha256Hex_chars_hex "secret" "payload"))]
    exact beq_self_eq_true _
  · rw [stripSha256Once_of_leading]
    exact sha_prefix_ne_self _

set_option maxRecDepth 1000000 in
set_option maxHeartbeats 4000000 in
/-- Witness for C2: the spec's round trip at a concrete payload/secret, a
corrupted concrete signature (appended and flipped characters) rejected,
and empty input rejected. -/
theorem c2_verify_webhook_signature_contract_witness :
    verify_webhook_signature "payload"
      ("sha256=" ++ hmacSha256Hex "secret" "payload") "secret" = true
    ∧ verify_webhook_signature "a"
        ("sha256=" ++ (hmacSha256Hex "b" "a" ++ "0")) "b" = false
    ∧ verify_webhook_signature "a"
        ("sha256=" ++ String.mk ((hmacSha256Hex "b" "a").data.set 0 '0')) "b" = false
    ∧ verify_webhook_signature "" "x" "x" = false := by
  refine ⟨?_, ?_, ?_, ?_⟩
  · exact c2_verify_webhook_signature_contract.1 "payload" "secret" (by decide) (by decide)
  · refine c2_verify_webhook_signature_contract.2.1 "a" "b" (hmacSha256Hex "b" "a" ++ "0")
      (by decide) (by decide) ?_ ?_
    · refine not_occurs_sha_of_hex _ ?_
      intro x hx
      rw [string_append_data] at hx
      rcases List.mem_append.1 hx with hx1 | hx2
      · exact hmacSha256Hex_chars_hex "b" "a" x hx1
      · simp only [List.mem_singleton] at hx2
        subst hx2
        decide
    · intro hcontra
      have := congrArg (fun s => s.data.length) hcontra
      simp [string_append_data] at this
  · exact c2_verify_webhook_signature_contract.2.2.1 "a" "b" 0 '0'
      (by decide) (by decide) (by decide) (by decide) (by decide)
  · exact c2_verify_webhook_signature_contract.2.2.2.1 "" "x" "x" (Or.inl rfl)
